import Mathlib

/-!
# Verification of the GeoVizPy scene-state and fusion logic

Shallow embedding of `src/geovizpy.py` (a PyVista/Trame geophysical
visualization app).  The mutable render state touched by the callbacks —
visibility flags, actor visibility/opacity/scalar-range, and the number of
`ctrl.view_update()` redraw signals — is modelled as an explicit
`SceneState` record, and each Python callback becomes a state-passing
function.  Opacity and scalar ranges are modelled over `ℚ`.
-/

namespace GeoVizPy

/-- The mutable state of one render actor, as touched by the callbacks in
`geovizpy.py`: `SetVisibility` (visibility), `GetProperty().SetOpacity`
(opacity), and `mapper.scalar_range` (scalar color range). -/
structure Actor where
  visible : Bool
  opacity : ℚ
  scalarRange : ℚ × ℚ
deriving DecidableEq, Repr

/-- The process-wide mutable scene state of `geovizpy.py`:
`state.visibilityList`, `state.visibilityDEM[0]`, `state.visibilityCMD[0]`,
the actor lists `actor_profile`, `actor_dem[0]`, `actor_cmd[0]`, and a
counter of emitted redraw signals (calls to `ctrl.view_update()`).
In the program `actor_profile` holds one actor per seismic mesh, so
`profileActors.length` equals `len(mesh)`. -/
structure SceneState where
  visibilityList : List Bool
  visibilityDEM : Bool
  visibilityCMD : Bool
  profileActors : List Actor
  demActor : Actor
  cmdActor : Actor
  redrawCount : Nat
deriving DecidableEq, Repr

/-- Apply `f` to the element at index `n`, leaving the rest of the list
unchanged (embedding of `lst[n].mutate(...)` on an in-bounds index). -/
def modifyAt (f : α → α) : List α → Nat → List α
  | [], _ => []
  | a :: l, 0 => f a :: l
  | a :: l, n + 1 => a :: modifyAt f l n

/-- `ctrl.view_update()`: emit one redraw signal. -/
def view_update (s : SceneState) : SceneState :=
  { s with redrawCount := s.redrawCount + 1 }

/-- `actor.SetVisibility(flag)`. -/
def setVisible (flag : Bool) (a : Actor) : Actor :=
  { a with visible := flag }

/-- `actor.GetProperty().SetOpacity(x)`.  The actor is the external VTK
collaborator: `vtkProperty::SetOpacity` is declared with
`vtkSetClampMacro(Opacity, double, 0.0, 1.0)`, i.e. it clamps its argument
to `[0, 1]`; the repository code passes the value through unchanged. -/
def setOpacity (x : ℚ) (a : Actor) : Actor :=
  { a with opacity := min 1 (max 0 x) }

/-- `hide_profile(num, flag)` (geovizpy.py lines 230-232):
`actor_profile[num].SetVisibility(flag); ctrl.view_update()`. -/
def hide_profile (num : Nat) (flag : Bool) (s : SceneState) : SceneState :=
  view_update { s with profileActors := modifyAt (setVisible flag) s.profileActors num }

/-- `hide_DEM(flag)` (lines 234-236). -/
def hide_DEM (flag : Bool) (s : SceneState) : SceneState :=
  view_update { s with demActor := setVisible flag s.demActor }

/-- `hide_CMD(flag)` (lines 238-240). -/
def hide_CMD (flag : Bool) (s : SceneState) : SceneState :=
  view_update { s with cmdActor := setVisible flag s.cmdActor }

/-- `update_profile_visibility(index, visibility)` (lines 243-246): writes
`state.visibilityList[index]`, marks it dirty (a UI-sync call with no effect
on the modelled state), then calls `hide_profile`. -/
def update_profile_visibility (index : Nat) (visibility : Bool) (s : SceneState) : SceneState :=
  hide_profile index visibility { s with visibilityList := s.visibilityList.set index visibility }

/-- `update_DEM_visibility(visibility)` (lines 248-251). -/
def update_DEM_visibility (visibility : Bool) (s : SceneState) : SceneState :=
  hide_DEM visibility { s with visibilityDEM := visibility }

/-- `update_CMD_visibility(visibility)` (lines 253-256). -/
def update_CMD_visibility (visibility : Bool) (s : SceneState) : SceneState :=
  hide_CMD visibility { s with visibilityCMD := visibility }

/-- `set_vel_range(vel_range)` (lines 380-384): assigns `vel_range` to
`actor_profile[j].mapper.scalar_range` for every `j in range(len(mesh))` —
one actor per mesh, so this is a map over all profile actors — then one
`ctrl.view_update()`. -/
def set_vel_range (r : ℚ × ℚ) (s : SceneState) : SceneState :=
  view_update
    { s with profileActors := s.profileActors.map (fun a => { a with scalarRange := r }) }

/-- `set_res_range(res_range)` (lines 386-389): assigns
`actor_cmd[0].mapper.scalar_range = res_range` unconditionally, then one
`ctrl.view_update()`.  There is no range validation in the code. -/
def set_res_range (r : ℚ × ℚ) (s : SceneState) : SceneState :=
  view_update { s with cmdActor := { s.cmdActor with scalarRange := r } }

/-- `update_opacity_dem(mnt_opacity)` (lines 391-394). -/
def update_opacity_dem (x : ℚ) (s : SceneState) : SceneState :=
  view_update { s with demActor := setOpacity x s.demActor }

/-- `update_opacity_cmd(cmd_opacity)` (lines 396-399). -/
def update_opacity_cmd (x : ℚ) (s : SceneState) : SceneState :=
  view_update { s with cmdActor := setOpacity x s.cmdActor }

/-- `visibility_change(event)` (lines 402-413): group id `"1"` loops
`update_profile_visibility(i, v)` over `range(len(mesh))` (modelled as
`List.range s.profileActors.length`, the same number); id `"2"` calls
`update_DEM_visibility(v)` then `update_CMD_visibility(v)`; in every case a
final `ctrl.view_update()` follows. -/
def visibility_change (id : String) (visible : Bool) (s : SceneState) : SceneState :=
  view_update
    (if id = "1" then
      (List.range s.profileActors.length).foldl
        (fun st i => update_profile_visibility i visible st) s
    else if id = "2" then
      update_CMD_visibility visible (update_DEM_visibility visible s)
    else s)

/-!
## SpatialInterpolator (spec-modelled)

The repository only invokes the scipy `NearestNDInterpolator` (an external
library, lines 173-174); the `resample` operation itself is not code under
`src/`, so it is modelled from the spec below.
-/

/-- Squared Euclidean distance between two planar points.  Minimizing the
squared distance is the same as minimizing the Euclidean distance, since
`Real.sqrt` is monotone on nonnegative arguments; working with squares
keeps everything in `ℚ`. -/
def sqDist (p q : ℚ × ℚ) : ℚ :=
  (p.1 - q.1) * (p.1 - q.1) + (p.2 - q.2) * (p.2 - q.2)

/-- Modelled from the spec: the nearest-neighbor scan at the heart of
`SpatialInterpolator.resample` (src only calls the scipy
`NearestNDInterpolator`).  Scans (point, value) candidates keeping the one
whose point is strictly closer to `t`; on equal minimum distance the
earlier (lower-index) candidate wins, the tie-break the spec documents. -/
def nearestPair (t : ℚ × ℚ) (l : List ((ℚ × ℚ) × ℚ)) (hd : (ℚ × ℚ) × ℚ) :
    (ℚ × ℚ) × ℚ :=
  l.foldl (fun best c => if sqDist t c.1 < sqDist t best.1 then c else best) hd

/-- Modelled from the spec: the value `resample` assigns to one target
point — the `sourceValue` paired with the nearest `sourcePoint`.  The `[]`
branch is unreachable whenever `sp` is nonempty and the lengths agree. -/
def pickValue (sp : List (ℚ × ℚ)) (sv : List ℚ) (t : ℚ × ℚ) : ℚ :=
  match sp.zip sv with
  | [] => 0
  | c :: cs => (nearestPair t cs c).2

/-- Modelled from the spec: `SpatialInterpolator.resample(sourcePoints,
sourceValues, targetPoints)` — absent from src, which delegates to scipy.
Fails with `InvalidInputError` when `sourcePoints` is empty or the lengths
differ; otherwise maps each target point to the value of its nearest
source point. -/
def resample (sp : List (ℚ × ℚ)) (sv : List ℚ) (tp : List (ℚ × ℚ)) :
    Except String (List ℚ) :=
  if sp.isEmpty ∨ sp.length ≠ sv.length then .error "InvalidInputError"
  else .ok (tp.map (pickValue sp sv))

/-!
## DrapeProjector (spec-modelled)

`drape` is implemented by the external `gemgis.visualization.
drape_array_over_dem` library call (lines 148-150, with `zmax=3000`); the
draping itself is not code under `src/`, so its elevation-clamping
contract is modelled from the spec.
-/

/-- A vertex of the elevation mesh handed to `drape`: planar position,
elevation, and its texture assignment (the raster pixel looked up from the
planar position). -/
structure Vertex where
  x : ℚ
  y : ℚ
  z : ℚ
  tex : Nat × Nat
deriving DecidableEq, Repr

/-- Modelled from the spec: the per-vertex elevation clamp of
`DrapeProjector.drape` (implemented externally by gemgis
`drape_array_over_dem`): an elevation above `zmax` is clamped to `zmax`;
the planar position and texture assignment are untouched. -/
def drapeVertex (zmax : ℚ) (v : Vertex) : Vertex :=
  if v.z > zmax then { v with z := zmax } else v

/-- Modelled from the spec: `drape` applied to the whole elevation mesh,
clamping every vertex. -/
def drape (zmax : ℚ) (verts : List Vertex) : List Vertex :=
  verts.map (drapeVertex zmax)

/-!
## Sample scene states for concrete counterexamples and witnesses
-/

/-- A concrete actor: visible, full opacity, scalar range `(0, 1)`. -/
def sampleActor : Actor :=
  ⟨true, 1, (0, 1)⟩

/-- A concrete scene with two profile layers, all layers visible — the
state right after fusion, with the redraw counter zeroed. -/
def sampleScene : SceneState :=
  ⟨[true, true], true, true, [sampleActor, sampleActor], sampleActor, sampleActor, 0⟩

/-!
## Helper lemmas
-/

theorem modifyAt_length (f : α → α) :
    ∀ (l : List α) (n : Nat), (modifyAt f l n).length = l.length
  | [], _ => rfl
  | _ :: _, 0 => rfl
  | _ :: l, n + 1 => by simp [modifyAt, modifyAt_length f l n]

theorem modifyAt_getElem? (f : α → α) :
    ∀ (l : List α) (n m : Nat),
      (modifyAt f l n)[m]? = if m = n then Option.map f l[m]? else l[m]?
  | [], n, m => by simp [modifyAt]
  | a :: l, 0, 0 => by simp [modifyAt]
  | a :: l, 0, m + 1 => by simp [modifyAt]
  | a :: l, n + 1, 0 => by simp [modifyAt]
  | a :: l, n + 1, m + 1 => by
      simp [modifyAt, modifyAt_getElem? f l n m]

theorem setVisible_idem (v : Bool) (a : Actor) :
    setVisible v (setVisible v a) = setVisible v a := rfl

/-- One step of the group-toggle loop: every scene field after
`update_profile_visibility`. -/
theorem update_profile_visibility_fields (i : Nat) (v : Bool) (s : SceneState) :
    (update_profile_visibility i v s).profileActors
        = modifyAt (setVisible v) s.profileActors i ∧
      (update_profile_visibility i v s).demActor = s.demActor ∧
      (update_profile_visibility i v s).cmdActor = s.cmdActor ∧
      (update_profile_visibility i v s).visibilityDEM = s.visibilityDEM ∧
      (update_profile_visibility i v s).visibilityCMD = s.visibilityCMD ∧
      (update_profile_visibility i v s).redrawCount = s.redrawCount + 1 :=
  ⟨rfl, rfl, rfl, rfl, rfl, rfl⟩

/-- The fold of the group-toggle loop over an arbitrary index list. -/
def profileFold (v : Bool) (L : List Nat) (s : SceneState) : SceneState :=
  L.foldl (fun st i => update_profile_visibility i v st) s

theorem profileFold_demActor (v : Bool) :
    ∀ (L : List Nat) (s : SceneState), (profileFold v L s).demActor = s.demActor
  | [], _ => rfl
  | i :: L, s => profileFold_demActor v L (update_profile_visibility i v s)

theorem profileFold_cmdActor (v : Bool) :
    ∀ (L : List Nat) (s : SceneState), (profileFold v L s).cmdActor = s.cmdActor
  | [], _ => rfl
  | i :: L, s => profileFold_cmdActor v L (update_profile_visibility i v s)

theorem profileFold_visibilityDEM (v : Bool) :
    ∀ (L : List Nat) (s : SceneState), (profileFold v L s).visibilityDEM = s.visibilityDEM
  | [], _ => rfl
  | i :: L, s => profileFold_visibilityDEM v L (update_profile_visibility i v s)

theorem profileFold_visibilityCMD (v : Bool) :
    ∀ (L : List Nat) (s : SceneState), (profileFold v L s).visibilityCMD = s.visibilityCMD
  | [], _ => rfl
  | i :: L, s => profileFold_visibilityCMD v L (update_profile_visibility i v s)

theorem profileFold_redrawCount (v : Bool) :
    ∀ (L : List Nat) (s : SceneState),
      (profileFold v L s).redrawCount = s.redrawCount + L.length
  | [], _ => rfl
  | i :: L, s => by
      have h := profileFold_redrawCount v L (update_profile_visibility i v s)
      simp only [profileFold, List.foldl_cons, List.length_cons] at h ⊢
      rw [h, (update_profile_visibility_fields i v s).2.2.2.2.2]
      omega

theorem profileFold_getElem? (v : Bool) :
    ∀ (L : List Nat) (s : SceneState) (j : Nat),
      (profileFold v L s).profileActors[j]?
        = if j ∈ L then Option.map (setVisible v) s.profileActors[j]?
          else s.profileActors[j]?
  | [], s, j => by simp [profileFold]
  | i :: L, s, j => by
      have h := profileFold_getElem? v L (update_profile_visibility i v s) j
      simp only [profileFold, List.foldl_cons] at h ⊢
      rw [h, (update_profile_visibility_fields i v s).1, modifyAt_getElem?]
      by_cases hjL : j ∈ L
      · by_cases hji : j = i
        · subst hji
          simp [hjL, Option.map_map, Function.comp_def, setVisible_idem]
        · simp [hjL, hji]
      · by_cases hji : j = i
        · subst hji
          simp [hjL]
        · simp [hjL, hji, List.mem_cons]

/-- The `id == "1"` branch of `visibility_change` sets the visibility of
every profile actor: the actor list ends up equal to the original list
mapped through `SetVisibility(v)`. -/
theorem visibility_change_profiles (v : Bool) (s : SceneState) :
    (visibility_change "1" v s).profileActors = s.profileActors.map (setVisible v) := by
  show (view_update (profileFold v (List.range s.profileActors.length) s)).profileActors
      = s.profileActors.map (setVisible v)
  refine List.ext_getElem? fun j => ?_
  show (profileFold v (List.range s.profileActors.length) s).profileActors[j]? = _
  rw [profileFold_getElem?, List.getElem?_map]
  by_cases hj : j < s.profileActors.length
  · simp [List.mem_range, hj]
  · rw [if_neg (by simpa [List.mem_range] using hj)]
    rw [List.getElem?_eq_none (by omega)]
    rfl

theorem nearestPair_mem (t : ℚ × ℚ) :
    ∀ (l : List ((ℚ × ℚ) × ℚ)) (hd : (ℚ × ℚ) × ℚ), nearestPair t l hd ∈ hd :: l
  | [], hd => by simp [nearestPair]
  | c :: l, hd => by
      have h := nearestPair_mem t l (if sqDist t c.1 < sqDist t hd.1 then c else hd)
      simp only [nearestPair, List.foldl_cons] at h ⊢
      rcases List.mem_cons.1 h with h' | h'
      · rw [h']
        by_cases hc : sqDist t c.1 < sqDist t hd.1 <;> simp [hc]
      · simp [h']

theorem nearestPair_min (t : ℚ × ℚ) :
    ∀ (l : List ((ℚ × ℚ) × ℚ)) (hd : (ℚ × ℚ) × ℚ),
      ∀ c ∈ hd :: l, sqDist t (nearestPair t l hd).1 ≤ sqDist t c.1
  | [], hd => by simp [nearestPair]
  | c :: l, hd => by
      intro d hd'
      have step : nearestPair t (c :: l) hd
          = nearestPair t l (if sqDist t c.1 < sqDist t hd.1 then c else hd) := rfl
      rw [step]
      have hmin := nearestPair_min t l (if sqDist t c.1 < sqDist t hd.1 then c else hd)
      have hhd : sqDist t (if sqDist t c.1 < sqDist t hd.1 then c else hd).1
          ≤ sqDist t hd.1 := by
        by_cases hc : sqDist t c.1 < sqDist t hd.1 <;> simp [hc, le_of_lt]
      have hc2 : sqDist t (if sqDist t c.1 < sqDist t hd.1 then c else hd).1
          ≤ sqDist t c.1 := by
        by_cases hc : sqDist t c.1 < sqDist t hd.1 <;> simp [hc, le_of_not_lt]
      have hself := hmin _ (List.mem_cons_self _ _)
      rcases List.mem_cons.1 hd' with h1 | h1
      · subst h1
        exact le_trans hself hhd
      · rcases List.mem_cons.1 h1 with h2 | h2
        · subst h2
          exact le_trans hself hc2
        · exact hmin d (List.mem_cons_of_mem _ h2)

theorem zip_fst_cover :
    ∀ (sp : List (ℚ × ℚ)) (sv : List ℚ), sp.length = sv.length →
      ∀ q ∈ sp, ∃ w, (q, w) ∈ sp.zip sv
  | [], _, _, q, hq => absurd hq (List.not_mem_nil q)
  | _ :: _, [], h, _, _ => by simp at h
  | a :: sp, b :: sv, h, q, hq => by
      rcases List.mem_cons.1 hq with h' | h'
      · exact ⟨b, h' ▸ List.mem_cons_self _ _⟩
      · obtain ⟨w, hw⟩ := zip_fst_cover sp sv (by simpa using h) q h'
        exact ⟨w, List.mem_cons_of_mem _ hw⟩

/-- The value `pickValue` assigns to a target comes from the zipped
source list and its source point is at minimum (squared, hence Euclidean)
distance among all source points. -/
theorem pickValue_spec (sp : List (ℚ × ℚ)) (sv : List ℚ) (t : ℚ × ℚ)
    (hne : sp ≠ []) (hlen : sp.length = sv.length) :
    ∃ p, (p, pickValue sp sv t) ∈ sp.zip sv ∧
      ∀ q ∈ sp, sqDist t p ≤ sqDist t q := by
  match sp, sv with
  | [], _ => exact absurd rfl hne
  | a :: sp', [] => simp at hlen
  | a :: sp', b :: sv' =>
    have hpick : pickValue (a :: sp') (b :: sv') t
        = (nearestPair t (sp'.zip sv') (a, b)).2 := rfl
    refine ⟨(nearestPair t (sp'.zip sv') (a, b)).1, ?_, ?_⟩
    · rw [hpick]
      exact nearestPair_mem t (sp'.zip sv') (a, b)
    · intro q hq
      obtain ⟨w, hw⟩ := zip_fst_cover (a :: sp') (b :: sv') hlen q hq
      have := nearestPair_min t (sp'.zip sv') (a, b) (q, w) hw
      simpa using this

/-!
## Claim theorems
-/

/-- C1 counterexample: on the concrete two-profile scene, the profile
group toggle emits 3 redraw signals (one inside `hide_profile` for each of
the two profiles, plus the final one of `visibility_change`), so it is not
the case that exactly one redraw signal is emitted. -/
theorem C1_counterexample :
    (visibility_change "1" false sampleScene).redrawCount
      ≠ sampleScene.redrawCount + 1 := by decide

/-- C1 (amended): the group toggle applies the visibility mutation to
every profile layer in registry order — the actor list becomes the
original list mapped through `SetVisibility(v)` — but it emits one redraw
signal per layer plus a final one: `n + 1` signals for `n` profile layers,
never exactly one. -/
theorem C1_toggleGroup_redraw_per_layer (v : Bool) (s : SceneState) :
    (visibility_change "1" v s).profileActors = s.profileActors.map (setVisible v) ∧
    (visibility_change "1" v s).redrawCount
      = s.redrawCount + s.profileActors.length + 1 := by
  refine ⟨visibility_change_profiles v s, ?_⟩
  show (profileFold v (List.range s.profileActors.length) s).redrawCount + 1 = _
  rw [profileFold_redrawCount, List.length_range]

/-- C2 counterexample: `update_opacity_dem` invoked with the opacity the
DEM layer already holds (a no-op value) still emits a redraw signal. -/
theorem C2_counterexample :
    (update_opacity_dem sampleScene.demActor.opacity sampleScene).redrawCount
      ≠ sampleScene.redrawCount := by decide

/-- C2 (amended): every setter emits exactly one redraw signal
unconditionally — in particular also when invoked with the value the layer
already holds; the code contains no no-op suppression. -/
theorem C2_setters_always_redraw (s : SceneState) (i : Nat) (v : Bool) (x : ℚ)
    (r : ℚ × ℚ) :
    (update_profile_visibility i v s).redrawCount = s.redrawCount + 1 ∧
    (update_DEM_visibility v s).redrawCount = s.redrawCount + 1 ∧
    (update_CMD_visibility v s).redrawCount = s.redrawCount + 1 ∧
    (update_opacity_dem x s).redrawCount = s.redrawCount + 1 ∧
    (update_opacity_cmd x s).redrawCount = s.redrawCount + 1 ∧
    (set_vel_range r s).redrawCount = s.redrawCount + 1 ∧
    (set_res_range r s).redrawCount = s.redrawCount + 1 :=
  ⟨rfl, rfl, rfl, rfl, rfl, rfl, rfl⟩

/-- C3: `resample` fails with `InvalidInputError` exactly when
`sourcePoints` is empty or when `sourcePoints` and `sourceValues` have
different lengths; on every other input it returns a result. -/
theorem C3_resample_error_iff (sp : List (ℚ × ℚ)) (sv : List ℚ) (tp : List (ℚ × ℚ)) :
    (resample sp sv tp = .error "InvalidInputError"
        ↔ sp = [] ∨ sp.length ≠ sv.length) ∧
    (sp ≠ [] → sp.length = sv.length →
      resample sp sv tp = .ok (tp.map (pickValue sp sv))) := by
  refine ⟨⟨?_, ?_⟩, ?_⟩
  · intro h
    by_contra hc
    push_neg at hc
    rw [resample, if_neg (by simp [List.isEmpty_iff, hc.1, hc.2])] at h
    exact Except.noConfusion h
  · intro h
    rw [resample, if_pos]
    rcases h with h | h <;> simp [List.isEmpty_iff, h]
  · intro h1 h2
    rw [resample, if_neg (by simp [List.isEmpty_iff, h1, h2])]

/-- C3 witness: the empty source fails, a singleton source succeeds. -/
theorem C3_witness :
    resample ([] : List (ℚ × ℚ)) ([] : List ℚ) ([] : List (ℚ × ℚ))
        = .error "InvalidInputError" ∧
    resample [((0 : ℚ), (0 : ℚ))] [(5 : ℚ)] ([] : List (ℚ × ℚ))
        = .ok (([] : List (ℚ × ℚ)).map (pickValue [((0 : ℚ), (0 : ℚ))] [(5 : ℚ)])) :=
  ⟨(C3_resample_error_iff [] [] []).1.2 (Or.inl rfl),
   (C3_resample_error_iff _ _ _).2 (by simp) rfl⟩

/-- C4: for non-empty equal-length sources and any targets, `resample`
succeeds, the output has the same length as `targetPoints`, every output
value is drawn from `sourceValues`, and each output is the source value
whose source point attains the minimum (squared, hence Euclidean) distance
to the corresponding target point. -/
theorem C4_resample_nearest (sp : List (ℚ × ℚ)) (sv : List ℚ) (tp : List (ℚ × ℚ))
    (hne : sp ≠ []) (hlen : sp.length = sv.length) :
    resample sp sv tp = .ok (tp.map (pickValue sp sv)) ∧
    (tp.map (pickValue sp sv)).length = tp.length ∧
    (∀ w ∈ tp.map (pickValue sp sv), w ∈ sv) ∧
    ∀ t ∈ tp, ∃ p, (p, pickValue sp sv t) ∈ sp.zip sv ∧
      ∀ q ∈ sp, sqDist t p ≤ sqDist t q := by
  refine ⟨?_, by simp, ?_, ?_⟩
  · rw [resample, if_neg (by simp [List.isEmpty_iff, hne, hlen])]
  · intro w hw
    obtain ⟨t, _, hwt⟩ := List.mem_map.1 hw
    obtain ⟨p, hp, _⟩ := pickValue_spec sp sv t hne hlen
    exact hwt ▸ (List.of_mem_zip hp).2
  · intro t _
    exact pickValue_spec sp sv t hne hlen

/-- C4 witness: the scenario of the spec,
`resample [(0,0),(10,0)] [5,50] [(1,0),(9,0)]`, succeeds and evaluates to
`[5, 50]`. -/
theorem C4_witness :
    resample [((0 : ℚ), (0 : ℚ)), (10, 0)] [(5 : ℚ), 50] [((1 : ℚ), (0 : ℚ)), (9, 0)]
        = .ok ([((1 : ℚ), (0 : ℚ)), (9, 0)].map
            (pickValue [((0 : ℚ), (0 : ℚ)), (10, 0)] [(5 : ℚ), 50])) ∧
    [((1 : ℚ), (0 : ℚ)), (9, 0)].map
        (pickValue [((0 : ℚ), (0 : ℚ)), (10, 0)] [(5 : ℚ), 50]) = [5, 50] :=
  ⟨(C4_resample_nearest _ _ _ (by decide) rfl).1,
   by norm_num [pickValue, nearestPair, sqDist, List.zip_cons_cons]⟩

/-- C5 counterexample: on the concrete scene (prior resistivity range
`(0, 1)`), `set_res_range (10, 5)` — min exceeding max — does not fail and
overwrites the prior range, so the prior range is not left unchanged. -/
theorem C5_counterexample :
    (set_res_range (10, 5) sampleScene).cmdActor.scalarRange
      ≠ sampleScene.cmdActor.scalarRange := by decide

/-- C5 (amended): `set_res_range` performs no range validation: every
range, including one whose min exceeds its max, is written unchanged to
the CMD actor and exactly one redraw signal is emitted; the function is
total, so no `InvalidRangeError` is ever raised. -/
theorem C5_set_res_range_unchecked (r : ℚ × ℚ) (s : SceneState) :
    (set_res_range r s).cmdActor.scalarRange = r ∧
    (set_res_range r s).redrawCount = s.redrawCount + 1 ∧
    (set_res_range r s).demActor = s.demActor ∧
    (set_res_range r s).profileActors = s.profileActors :=
  ⟨rfl, rfl, rfl, rfl⟩

/-- C6: `drape` clamps each vertex elevation above `maxElevation` to
`maxElevation`, leaves elevations at or below it unchanged, and never
changes the planar position or the texture assignment of a vertex. -/
theorem C6_drape_clamps (zmax : ℚ) (verts : List Vertex) (v : Vertex) :
    drape zmax verts = verts.map (drapeVertex zmax) ∧
    (v.z > zmax → (drapeVertex zmax v).z = zmax) ∧
    (v.z ≤ zmax → (drapeVertex zmax v).z = v.z) ∧
    (drapeVertex zmax v).x = v.x ∧
    (drapeVertex zmax v).y = v.y ∧
    (drapeVertex zmax v).tex = v.tex := by
  refine ⟨rfl, ?_, ?_, ?_, ?_, ?_⟩
  · intro h
    simp [drapeVertex, h]
  · intro h
    simp [drapeVertex, not_lt.2 h]
  · by_cases h : v.z > zmax <;> simp [drapeVertex, h]
  · by_cases h : v.z > zmax <;> simp [drapeVertex, h]
  · by_cases h : v.z > zmax <;> simp [drapeVertex, h]

/-- C6 witness: with `zmax = 3000` (the value passed in the program), a
vertex at elevation 4000 is clamped to 3000 and one at 2000 is kept. -/
theorem C6_witness :
    (drapeVertex 3000 ⟨0, 0, 4000, (0, 0)⟩).z = 3000 ∧
    (drapeVertex 3000 ⟨0, 0, 2000, (0, 0)⟩).z = 2000 :=
  ⟨(C6_drape_clamps 3000 [] ⟨0, 0, 4000, (0, 0)⟩).2.1 (by norm_num),
   (C6_drape_clamps 3000 [] ⟨0, 0, 2000, (0, 0)⟩).2.2.1 (by norm_num)⟩

/-- C7: the opacity setters clamp every numeric input to `[0, 1]` — the
clamp lives in the external VTK `SetOpacity` the code delegates to — and
they are total: no opacity value makes them fail (the code has no id
lookup at all; the DEM and CMD actors are fixed). -/
theorem C7_setOpacity_clamps (x : ℚ) (s : SceneState) :
    (0 ≤ (update_opacity_cmd x s).cmdActor.opacity ∧
      (update_opacity_cmd x s).cmdActor.opacity ≤ 1) ∧
    (x < 0 → (update_opacity_cmd x s).cmdActor.opacity = 0) ∧
    (1 < x → (update_opacity_cmd x s).cmdActor.opacity = 1) ∧
    (0 ≤ x → x ≤ 1 → (update_opacity_cmd x s).cmdActor.opacity = x) ∧
    (update_opacity_dem x s).demActor.opacity
      = (update_opacity_cmd x s).cmdActor.opacity := by
  have hval : (update_opacity_cmd x s).cmdActor.opacity = min 1 (max 0 x) := rfl
  refine ⟨⟨?_, ?_⟩, ?_, ?_, ?_, rfl⟩
  · rw [hval]
    exact le_min (by norm_num) (le_max_left 0 x)
  · rw [hval]
    exact min_le_left 1 _
  · intro h
    rw [hval, max_eq_left (le_of_lt h)]
    norm_num
  · intro h
    rw [hval, max_eq_right (by linarith), min_eq_left (le_of_lt h)]
  · intro h0 h1
    rw [hval, max_eq_right h0, min_eq_right h1]

/-- C7 witness: opacity 3/2 is clamped to 1 and opacity -1 to 0. -/
theorem C7_witness :
    (update_opacity_cmd (3 / 2) sampleScene).cmdActor.opacity = 1 ∧
    (update_opacity_cmd (-1) sampleScene).cmdActor.opacity = 0 :=
  ⟨(C7_setOpacity_clamps (3 / 2) sampleScene).2.2.1 (by norm_num),
   (C7_setOpacity_clamps (-1) sampleScene).2.1 (by norm_num)⟩

/-- C8: the profile group toggle mutates only profile layers: every
profile actor ends with the requested visibility, while the DEM and CMD
actors — hence their visibility, opacity and color range — and the DEM and
CMD visibility flags are left untouched. -/
theorem C8_toggleGroup_only_profiles (v : Bool) (s : SceneState) :
    (∀ a ∈ (visibility_change "1" v s).profileActors, a.visible = v) ∧
    (visibility_change "1" v s).demActor = s.demActor ∧
    (visibility_change "1" v s).cmdActor = s.cmdActor ∧
    (visibility_change "1" v s).visibilityDEM = s.visibilityDEM ∧
    (visibility_change "1" v s).visibilityCMD = s.visibilityCMD := by
  refine ⟨?_, ?_, ?_, ?_, ?_⟩
  · intro a ha
    rw [visibility_change_profiles] at ha
    obtain ⟨b, _, hb⟩ := List.mem_map.1 ha
    rw [← hb]
    rfl
  · exact profileFold_demActor v (List.range s.profileActors.length) s
  · exact profileFold_cmdActor v (List.range s.profileActors.length) s
  · exact profileFold_visibilityDEM v (List.range s.profileActors.length) s
  · exact profileFold_visibilityCMD v (List.range s.profileActors.length) s

/-- C8 witness: on the concrete two-profile scene, the toggled profile
actor is invisible and the DEM actor is exactly the one from before. -/
theorem C8_witness :
    (setVisible false sampleActor).visible = false ∧
    (visibility_change "1" false sampleScene).demActor = sampleScene.demActor :=
  ⟨(C8_toggleGroup_only_profiles false sampleScene).1 (setVisible false sampleActor)
      (by decide),
   (C8_toggleGroup_only_profiles false sampleScene).2.1⟩

/-- C9: a `visibility_change` event with group id "2" ("Images and maps")
sets the visibility of both the DEM/aerial layer and the CMD resistivity
layer — actors and state flags — to the same requested value in one
event. -/
theorem C9_group2_sets_both (v : Bool) (s : SceneState) :
    (visibility_change "2" v s).demActor.visible = v ∧
    (visibility_change "2" v s).cmdActor.visible = v ∧
    (visibility_change "2" v s).visibilityDEM = v ∧
    (visibility_change "2" v s).visibilityCMD = v := by
  have step : visibility_change "2" v s
      = view_update (update_CMD_visibility v (update_DEM_visibility v s)) := by
    unfold visibility_change
    rw [if_neg (by decide), if_pos rfl]
  rw [step]
  exact ⟨rfl, rfl, rfl, rfl⟩

/-- C10: after any velocity color-range change, every profile actor holds
exactly the assigned scalar range, so no two profile layers can hold
different velocity color ranges. -/
theorem C10_vel_range_uniform (r : ℚ × ℚ) (s : SceneState) :
    (∀ a ∈ (set_vel_range r s).profileActors, a.scalarRange = r) ∧
    ∀ a ∈ (set_vel_range r s).profileActors,
      ∀ b ∈ (set_vel_range r s).profileActors, a.scalarRange = b.scalarRange := by
  have hall : ∀ a ∈ (set_vel_range r s).profileActors, a.scalarRange = r := by
    intro a ha
    have hmap : (set_vel_range r s).profileActors
        = s.profileActors.map (fun a => { a with scalarRange := r }) := rfl
    rw [hmap] at ha
    obtain ⟨b, _, hb⟩ := List.mem_map.1 ha
    rw [← hb]
  exact ⟨hall, fun a ha b hb => (hall a ha).trans (hall b hb).symm⟩

/-- C10 witness: on the concrete scene, the updated sample actor is in the
resulting actor list and indeed carries the assigned range. -/
theorem C10_witness :
    ({ sampleActor with scalarRange := ((2 : ℚ), (3 : ℚ)) } : Actor).scalarRange
      = ((2 : ℚ), (3 : ℚ)) :=
  (C10_vel_range_uniform (2, 3) sampleScene).1
    { sampleActor with scalarRange := ((2 : ℚ), (3 : ℚ)) } (by decide)

end GeoVizPy
